import Mathlib

/-!
Verification development for the virtualvirtualboy stereo presentation core.

The C++ sources under app/src/main/cpp are shallowly embedded here:
machine floats are modelled by the type F below (a finite rational plus
the IEEE special values plus-infinity, minus-infinity and NaN; rounding of
finite operations is not modelled), C++ int values by Int (no overflow is
exercised by any claim), and raw pointers by Option-wrapped index
functions (none models a null pointer).
-/

/-- Model of a C++ float: a finite rational or one of the IEEE special
values.  Rounding of finite arithmetic is not modelled; signed zero is
collapsed to zero. -/
inductive F where
  | fin (q : ℚ)
  | pinf
  | ninf
  | nan
deriving DecidableEq, Repr

namespace F

/-- std::isfinite. -/
def isFinite : F → Bool
  | .fin _ => true
  | _ => false

/-- The C++ operator < on floats: any comparison with NaN is false. -/
def flt : F → F → Bool
  | .fin a, .fin b => decide (a < b)
  | .fin _, .pinf => true
  | .ninf, .fin _ => true
  | .ninf, .pinf => true
  | _, _ => false

/-- The C++ operator <= on floats: any comparison with NaN is false. -/
def fle : F → F → Bool
  | .fin a, .fin b => decide (a ≤ b)
  | .fin _, .pinf => true
  | .ninf, .fin _ => true
  | .ninf, .pinf => true
  | .pinf, .pinf => true
  | .ninf, .ninf => true
  | _, _ => false

/-- IEEE negation. -/
def neg : F → F
  | .fin a => .fin (-a)
  | .pinf => .ninf
  | .ninf => .pinf
  | .nan => .nan

/-- IEEE absolute value (std::fabs). -/
def fabs : F → F
  | .fin a => .fin |a|
  | .pinf => .pinf
  | .ninf => .pinf
  | .nan => .nan

/-- IEEE addition on the modelled values (finite overflow not modelled). -/
def add : F → F → F
  | .fin a, .fin b => .fin (a + b)
  | .fin _, .pinf => .pinf
  | .fin _, .ninf => .ninf
  | .pinf, .fin _ => .pinf
  | .ninf, .fin _ => .ninf
  | .pinf, .pinf => .pinf
  | .ninf, .ninf => .ninf
  | _, _ => .nan

/-- IEEE subtraction, derived as addition of the negation. -/
def sub (a b : F) : F := add a (neg b)

/-- IEEE multiplication (finite overflow not modelled). -/
def mul : F → F → F
  | .fin a, .fin b => .fin (a * b)
  | .fin a, .pinf => if 0 < a then .pinf else if a < 0 then .ninf else .nan
  | .fin a, .ninf => if 0 < a then .ninf else if a < 0 then .pinf else .nan
  | .pinf, .fin b => if 0 < b then .pinf else if b < 0 then .ninf else .nan
  | .ninf, .fin b => if 0 < b then .ninf else if b < 0 then .pinf else .nan
  | .pinf, .pinf => .pinf
  | .pinf, .ninf => .ninf
  | .ninf, .pinf => .ninf
  | .ninf, .ninf => .pinf
  | _, _ => .nan

/-- IEEE division (signed zero collapsed; finite underflow not modelled). -/
def fdiv : F → F → F
  | .fin a, .fin b =>
      if b = 0 then (if a = 0 then .nan else if 0 < a then .pinf else .ninf)
      else .fin (a / b)
  | .fin _, .pinf => .fin 0
  | .fin _, .ninf => .fin 0
  | .pinf, .fin b => if 0 ≤ b then .pinf else .ninf
  | .ninf, .fin b => if 0 ≤ b then .ninf else .pinf
  | _, _ => .nan

/-- std::max on floats: (a < b) ? b : a. -/
def fmax (a b : F) : F := if flt a b then b else a

/-- std::min on floats: (b < a) ? b : a. -/
def fmin (a b : F) : F := if flt b a then b else a

/-- std::clamp on floats: (v < lo) ? lo : ((hi < v) ? hi : v). -/
def clamp (v lo hi : F) : F := if flt v lo then lo else if flt hi v then hi else v

end F

/-- DepthReconstructionConfig from stereo_depth_reconstructor.h, with the
same default member values. -/
structure DepthReconstructionConfig where
  focalLengthPx : F := .fin 250
  baselineMeters : F := .fin 0.064
  disparityBiasPx : F := .fin 0
  minDisparityPx : F := .fin 0.30
  nearZ : F := .fin 0.45
  farZ : F := .fin 8.5
  baseDistanceMeters : F := .fin 1.25
  gridStepX : Int := 8
  gridStepY : Int := 2
deriving DecidableEq, Repr

namespace StereoDepthReconstructor

/-- StereoDepthReconstructor::setConfig: stores the given configuration and
re-clamps its fields in source order (the farZ clamp reads the already
clamped nearZ). -/
def setConfig (config : DepthReconstructionConfig) : DepthReconstructionConfig :=
  let focalLengthPx := F.fmax config.focalLengthPx (.fin 1)
  let baselineMeters := F.fmax config.baselineMeters (.fin 0.001)
  let minDisparityPx := F.fmax config.minDisparityPx (.fin 0.001)
  let nearZ := F.fmax config.nearZ (.fin 0.01)
  let farZ := F.fmax config.farZ (F.add nearZ (.fin 0.01))
  { focalLengthPx := focalLengthPx
    baselineMeters := baselineMeters
    disparityBiasPx := config.disparityBiasPx
    minDisparityPx := minDisparityPx
    nearZ := nearZ
    farZ := farZ
    baseDistanceMeters := config.baseDistanceMeters
    gridStepX := max config.gridStepX 1
    gridStepY := max config.gridStepY 1 }

/-- StereoDepthReconstructor::reconstructDepthMeters. -/
def reconstructDepthMeters (cfg : DepthReconstructionConfig) (disparityPx : F) : F :=
  let effectiveDisparity := F.sub (F.fabs disparityPx) cfg.disparityBiasPx
  if F.flt effectiveDisparity cfg.minDisparityPx then cfg.farZ
  else
    let z := F.fdiv (F.mul cfg.focalLengthPx cfg.baselineMeters)
      (F.fmax effectiveDisparity (.fin 0.001))
    F.clamp z cfg.nearZ cfg.farZ

end StereoDepthReconstructor

/-- DepthMeshData from stereo_depth_reconstructor.h.  Vertices are the flat
list of interleaved x,y,z,u,v floats; indices hold the triangle list (the
C++ uint16_t cast is modelled by reduction mod 65536). -/
structure DepthMeshData where
  vertices : List F := []
  indices : List Int := []
  gridColumns : Int := 0
  gridRows : Int := 0
  valid : Bool := false
deriving DecidableEq, Repr

/-- The value-initialised DepthMeshData, as produced by `out = {}`. -/
def emptyMesh : DepthMeshData := {}

namespace StereoDepthReconstructor

/-- Grid column count: `((sampleWidth - 1) / gridStepX) + 1` with C++
truncating integer division. -/
def meshCols (cfg : DepthReconstructionConfig) (sampleWidth : Int) : Int :=
  (sampleWidth - 1).tdiv cfg.gridStepX + 1

/-- Grid row count: `((sampleHeight - 1) / gridStepY) + 1` with C++
truncating integer division. -/
def meshRows (cfg : DepthReconstructionConfig) (sampleHeight : Int) : Int :=
  (sampleHeight - 1).tdiv cfg.gridStepY + 1

/-- The row-major sequence of grid coordinates (gy, gx) visited by the
nested vertex loops: position k holds (k / cols, k % cols). -/
def gridPairs (rows cols : Nat) : List (Nat × Nat) :=
  (List.range (rows * cols)).map (fun k => (k / cols, k % cols))

/-- `py = min(gy * gridStepY, sampleHeight - 1)`. -/
def samplePy (cfg : DepthReconstructionConfig) (sampleHeight : Int) (gy : Nat) : Int :=
  min ((gy : Int) * cfg.gridStepY) (sampleHeight - 1)

/-- `px = min(gx * gridStepX, sampleWidth - 1)`. -/
def samplePx (cfg : DepthReconstructionConfig) (sampleWidth : Int) (gx : Nat) : Int :=
  min ((gx : Int) * cfg.gridStepX) (sampleWidth - 1)

/-- Flat index into the disparity array:
`py * disparityWidth + (disparityOffsetX + px)`. -/
def sampleIndex (disparityWidth disparityOffsetX px py : Int) : Int :=
  py * disparityWidth + (disparityOffsetX + px)

/-- The five interleaved floats of one mesh vertex, given the resolved
depth z: camera-space position by the pinhole model plus the uv pair. -/
def meshVertex (cfg : DepthReconstructionConfig) (sampleWidth sampleHeight : Int)
    (uvOffsetX uvScaleX : F) (px py : Int) (z : F) : List F :=
  let cx := F.mul (.fin ((sampleWidth - 1 : Int) : ℚ)) (.fin 0.5)
  let cy := F.mul (.fin ((sampleHeight - 1 : Int) : ℚ)) (.fin 0.5)
  let invSampleWidth := F.fdiv (.fin 1) (.fin ((sampleWidth - 1 : Int) : ℚ))
  let invSampleHeight := F.fdiv (.fin 1) (.fin ((sampleHeight - 1 : Int) : ℚ))
  let xMeters := F.fdiv (F.mul (F.sub (.fin (px : ℚ)) cx) z) cfg.focalLengthPx
  let yMeters := F.fdiv (F.mul (F.sub cy (.fin (py : ℚ))) z) cfg.focalLengthPx
  let zMeters := F.neg (F.add z cfg.baseDistanceMeters)
  let u := F.add uvOffsetX (F.mul (F.mul (.fin (px : ℚ)) invSampleWidth) uvScaleX)
  let v := F.mul (.fin (py : ℚ)) invSampleHeight
  [xMeters, yMeters, zMeters, u, v]

/-- The disparity sample at scan position k, cast from int8 to float. -/
def scanSampleF (cfg : DepthReconstructionConfig) (disp : Int → Int)
    (disparityWidth disparityOffsetX sampleWidth sampleHeight : Int) (cols k : Nat) : F :=
  .fin ((disp (sampleIndex disparityWidth disparityOffsetX
    (samplePx cfg sampleWidth (k % cols)) (samplePy cfg sampleHeight (k / cols))) : ℚ))

/-- One iteration of the vertex loop: reconstruct depth, hold the previous
scan value when the result is non-finite, append the five vertex floats and
carry the depth forward as the new prevZ. -/
def meshScanStep (cfg : DepthReconstructionConfig) (disp : Int → Int)
    (disparityWidth disparityOffsetX sampleWidth sampleHeight : Int)
    (uvOffsetX uvScaleX : F) (st : List F × F) (p : Nat × Nat) : List F × F :=
  let py := samplePy cfg sampleHeight p.1
  let px := samplePx cfg sampleWidth p.2
  let disparityPx : F := .fin ((disp (sampleIndex disparityWidth disparityOffsetX px py) : ℚ))
  let z0 := reconstructDepthMeters cfg disparityPx
  let z := if z0.isFinite then z0 else st.2
  (st.1 ++ meshVertex cfg sampleWidth sampleHeight uvOffsetX uvScaleX px py z, z)

/-- The vertex loop of buildMesh: row-major fold with prevZ seeded to farZ. -/
def buildMeshVertices (cfg : DepthReconstructionConfig) (disp : Int → Int)
    (disparityWidth disparityOffsetX sampleWidth sampleHeight : Int)
    (uvOffsetX uvScaleX : F) (rows cols : Nat) : List F :=
  ((gridPairs rows cols).foldl
    (meshScanStep cfg disp disparityWidth disparityOffsetX sampleWidth sampleHeight
      uvOffsetX uvScaleX)
    ([], cfg.farZ)).1

/-- The six triangle indices of one grid cell, in source emission order
(i0,i2,i1,i1,i2,i3), each cast to uint16_t (mod 65536). -/
def cellIndices (cols : Int) (gy gx : Nat) : List Int :=
  let i0 := Int.emod ((gy : Int) * cols + (gx : Int)) 65536
  let i1 := Int.emod ((gy : Int) * cols + ((gx : Int) + 1)) 65536
  let i2 := Int.emod (((gy : Int) + 1) * cols + (gx : Int)) 65536
  let i3 := Int.emod (((gy : Int) + 1) * cols + ((gx : Int) + 1)) 65536
  [i0, i2, i1, i1, i2, i3]

/-- The index loop shared by both mesh builders: two triangles per grid
cell over a (rows-1) by (cols-1) cell grid. -/
def buildIndices (cols rows : Int) : List Int :=
  ((List.range (rows - 1).toNat).map (fun gy =>
    ((List.range (cols - 1).toNat).map (fun gx => cellIndices cols gy gx)).flatten)).flatten

/-- StereoDepthReconstructor::buildMesh.  The disparity pointer is modelled
as an optional index function (none models nullptr); the boolean result is
paired with the output mesh, which the source value-initialises first. -/
def buildMesh (cfg : DepthReconstructionConfig) (disparity : Option (Int → Int))
    (disparityWidth disparityHeight disparityOffsetX sampleWidth sampleHeight : Int)
    (uvOffsetX uvScaleX : F) : Bool × DepthMeshData :=
  match disparity with
  | none => (false, emptyMesh)
  | some disp =>
    if disparityWidth ≤ 1 ∨ disparityHeight ≤ 1 ∨ sampleWidth ≤ 1 ∨ sampleHeight ≤ 1 ∨
        disparityOffsetX < 0 ∨ disparityWidth < disparityOffsetX + sampleWidth then
      (false, emptyMesh)
    else
      let cols := meshCols cfg sampleWidth
      let rows := meshRows cfg sampleHeight
      if cols ≤ 1 ∨ rows ≤ 1 then (false, emptyMesh)
      else if 65535 ≤ cols * rows then (false, emptyMesh)
      else
        let vertices := buildMeshVertices cfg disp disparityWidth disparityOffsetX
          sampleWidth sampleHeight uvOffsetX uvScaleX rows.toNat cols.toNat
        let indices := buildIndices cols rows
        let out : DepthMeshData :=
          { vertices := vertices, indices := indices, gridColumns := cols, gridRows := rows,
            valid := !vertices.isEmpty && !indices.isEmpty }
        (out.valid, out)

/-- The depth value held at scan position k by the hold-last-good-value
policy: the reconstructed depth when finite, otherwise the value held at
the previous scan position (farZ before the first position). -/
def scanDepth (cfg : DepthReconstructionConfig) (disp : Int → Int)
    (disparityWidth disparityOffsetX sampleWidth sampleHeight : Int) (cols : Nat) :
    Nat → F
  | 0 =>
    let z0 := reconstructDepthMeters cfg
      (scanSampleF cfg disp disparityWidth disparityOffsetX sampleWidth sampleHeight cols 0)
    if z0.isFinite then z0 else cfg.farZ
  | k + 1 =>
    let z0 := reconstructDepthMeters cfg
      (scanSampleF cfg disp disparityWidth disparityOffsetX sampleWidth sampleHeight cols (k + 1))
    if z0.isFinite then z0
    else scanDepth cfg disp disparityWidth disparityOffsetX sampleWidth sampleHeight cols k

end StereoDepthReconstructor

/-- VipMappingEvaluator from vip_mapping_evaluator.h: a non-owning view
over the two source-coordinate arrays (none models a null pointer) plus
the frame and eye dimensions and the validity flag set by bind. -/
structure VipMappingEvaluator where
  sourceX : Option (Int → Int) := none
  sourceY : Option (Int → Int) := none
  width : Int := 0
  height : Int := 0
  eyeWidth : Int := 0
  eyeHeight : Int := 0
  valid : Bool := false

namespace VipMappingEvaluator

/-- The sentinel marking "no mapping available". -/
def kInvalidSourceCoord : Int := -32768

/-- VipMappingEvaluator::EyeSample, with its default member values. -/
structure EyeSample where
  sx : F := .fin 0
  sy : F := .fin 0
  valid : Bool := false
deriving DecidableEq, Repr

/-- VipMappingEvaluator::bind: stores the view; valid iff both pointers are
non-null and all four dimensions are positive. -/
def bind (sourceX sourceY : Option (Int → Int)) (width height eyeWidth eyeHeight : Int) :
    VipMappingEvaluator :=
  { sourceX := sourceX
    sourceY := sourceY
    width := width
    height := height
    eyeWidth := eyeWidth
    eyeHeight := eyeHeight
    valid := sourceX.isSome && sourceY.isSome && decide (0 < width) && decide (0 < height) &&
      decide (0 < eyeWidth) && decide (0 < eyeHeight) }

/-- VipMappingEvaluator::evaluateEye.  The catch-all match arm is
unreachable for evaluators built by bind, whose valid flag guarantees both
arrays are present. -/
def evaluateEye (e : VipMappingEvaluator) (eye x y : Int) : EyeSample :=
  if e.valid = false ∨ eye < 0 ∨ 1 < eye ∨ x < 0 ∨ y < 0 ∨ e.eyeWidth ≤ x ∨ e.eyeHeight ≤ y then
    {}
  else
    let screenX := x + eye * e.eyeWidth
    if screenX < 0 ∨ e.width ≤ screenX ∨ e.height ≤ y then {}
    else
      let index := y * e.width + screenX
      match e.sourceX, e.sourceY with
      | some fx, some fy =>
        if fx index = kInvalidSourceCoord ∨ fy index = kInvalidSourceCoord then {}
        else { sx := .fin ((fx index : ℚ)), sy := .fin ((fy index : ℚ)), valid := true }
      | _, _ => {}

/-- VipMappingEvaluator::stereoReady: valid and width at least twice the
eye width. -/
def stereoReady (e : VipMappingEvaluator) : Bool :=
  e.valid && decide (e.eyeWidth * 2 ≤ e.width)

end VipMappingEvaluator

namespace WorldMeshBuilder

open StereoDepthReconstructor (gridPairs buildIndices)

/-- `stepX = max(1, cfg.gridStepX)`. -/
def stereoStepX (cfg : DepthReconstructionConfig) : Int := max 1 cfg.gridStepX

/-- `stepY = max(1, cfg.gridStepY)`. -/
def stereoStepY (cfg : DepthReconstructionConfig) : Int := max 1 cfg.gridStepY

/-- Grid column count of the stereo correspondence mesh. -/
def stereoCols (e : VipMappingEvaluator) (cfg : DepthReconstructionConfig) : Int :=
  (e.eyeWidth - 1).tdiv (stereoStepX cfg) + 1

/-- Grid row count of the stereo correspondence mesh. -/
def stereoRows (e : VipMappingEvaluator) (cfg : DepthReconstructionConfig) : Int :=
  (e.eyeHeight - 1).tdiv (stereoStepY cfg) + 1

/-- One iteration of the stereo correspondence vertex loop: sample both
eyes here and at the next grid column (synthesising identity mappings when
either eye is invalid), estimate the disparity as the scalar projection of
the inter-eye offset onto the adjacent-column motion vector (holding the
previous value when the motion is near zero), triangulate the depth and
append the five vertex floats, carrying the disparity estimate forward. -/
def stereoScanStep (e : VipMappingEvaluator) (cfg : DepthReconstructionConfig)
    (st : List F × F) (p : Nat × Nat) : List F × F :=
  let py := min ((p.1 : Int) * stereoStepY cfg) (e.eyeHeight - 1)
  let px := min ((p.2 : Int) * stereoStepX cfg) (e.eyeWidth - 1)
  let left0 := e.evaluateEye 0 px py
  let right0 := e.evaluateEye 1 px py
  let bothValid := left0.valid && right0.valid
  let idSample : VipMappingEvaluator.EyeSample :=
    { sx := .fin (px : ℚ), sy := .fin (py : ℚ), valid := true }
  let left := if bothValid then left0 else idSample
  let right := if bothValid then right0 else idSample
  let nx := min (px + stereoStepX cfg) (e.eyeWidth - 1)
  let leftNext0 := e.evaluateEye 0 nx py
  let rightNext0 := e.evaluateEye 1 nx py
  let bothNextValid := leftNext0.valid && rightNext0.valid
  let leftNext := if bothNextValid then leftNext0 else left
  let rightNext := if bothNextValid then rightNext0 else right
  let sCx := F.mul (F.add left.sx right.sx) (.fin 0.5)
  let sCy := F.mul (F.add left.sy right.sy) (.fin 0.5)
  let sCxN := F.mul (F.add leftNext.sx rightNext.sx) (.fin 0.5)
  let sCyN := F.mul (F.add leftNext.sy rightNext.sy) (.fin 0.5)
  let tx := F.sub sCxN sCx
  let ty := F.sub sCyN sCy
  let dsx := F.sub left.sx right.sx
  let dsy := F.sub left.sy right.sy
  let t2 := F.add (F.mul tx tx) (F.mul ty ty)
  let d := if F.flt (.fin 0.0001) t2 then
      F.fdiv (F.add (F.mul tx dsx) (F.mul ty dsy)) t2
    else st.2
  let denom := F.sub d cfg.disparityBiasPx
  let zMeters :=
    if F.fle cfg.minDisparityPx (F.fabs denom) then
      F.clamp (F.fdiv (F.mul cfg.focalLengthPx cfg.baselineMeters) (F.fabs denom))
        cfg.nearZ cfg.farZ
    else cfg.farZ
  let cx := F.mul (.fin ((e.eyeWidth - 1 : Int) : ℚ)) (.fin 0.5)
  let cy := F.mul (.fin ((e.eyeHeight - 1 : Int) : ℚ)) (.fin 0.5)
  let invW := F.fdiv (.fin 1) (.fin ((e.eyeWidth - 1 : Int) : ℚ))
  let invH := F.fdiv (.fin 1) (.fin ((e.eyeHeight - 1 : Int) : ℚ))
  let xMeters := F.fdiv (F.mul (F.sub (.fin (px : ℚ)) cx) zMeters) cfg.focalLengthPx
  let yMeters := F.fdiv (F.mul (F.sub cy (.fin (py : ℚ))) zMeters) cfg.focalLengthPx
  let zWorld := F.neg (F.add zMeters cfg.baseDistanceMeters)
  let u := F.mul (.fin (px : ℚ)) invW
  let v := F.mul (.fin (py : ℚ)) invH
  (st.1 ++ [xMeters, yMeters, zWorld, u, v], d)

/-- The vertex loop of buildStereoMeshes: row-major fold with the
disparity estimate seeded to 0. -/
def buildStereoVertices (e : VipMappingEvaluator) (cfg : DepthReconstructionConfig)
    (rows cols : Nat) : List F :=
  ((gridPairs rows cols).foldl (stereoScanStep e cfg) ([], .fin 0)).1

/-- WorldMeshBuilder::buildStereoMeshes.  The index loop of the source is
the verbatim duplicate of the one in buildMesh, so buildIndices is
reused.  Both output meshes are modelled as the last two components of the
result, value-initialised on every failure path. -/
def buildStereoMeshes (e : VipMappingEvaluator) (cfg : DepthReconstructionConfig) :
    Bool × DepthMeshData × DepthMeshData :=
  if !(VipMappingEvaluator.stereoReady e) then (false, emptyMesh, emptyMesh)
  else if e.eyeWidth ≤ 1 ∨ e.eyeHeight ≤ 1 then (false, emptyMesh, emptyMesh)
  else
    let cols := stereoCols e cfg
    let rows := stereoRows e cfg
    if cols ≤ 1 ∨ rows ≤ 1 then (false, emptyMesh, emptyMesh)
    else
      let vertices := buildStereoVertices e cfg rows.toNat cols.toNat
      let indices := buildIndices cols rows
      let mesh : DepthMeshData :=
        { vertices := vertices, indices := indices, gridColumns := cols, gridRows := rows,
          valid := !vertices.isEmpty && !indices.isEmpty }
      if mesh.valid then (true, mesh, mesh) else (false, emptyMesh, emptyMesh)

end WorldMeshBuilder

namespace NativeApp

/-- App::ViewMode (Classic = 0, Anchored = 2). -/
inductive ViewMode where
  | Classic
  | Anchored
deriving DecidableEq, Repr

/-- The underlying integer of a ViewMode value. -/
def ViewMode.toInt : ViewMode → Int
  | .Classic => 0
  | .Anchored => 2

/-- VbInputState from libretro_vb_core.h. -/
structure VbInputState where
  left : Bool := false
  right : Bool := false
  up : Bool := false
  down : Bool := false
  a : Bool := false
  b : Bool := false
  l : Bool := false
  r : Bool := false
  start : Bool := false
  select : Bool := false
deriving DecidableEq, Repr

/-- Presentation constants from the top of native_app.cpp. -/
def kDefaultScreenScale : ℚ := 0.62

/-- Default stereo convergence. -/
def kDefaultStereoConvergence : ℚ := -0.04

/-- Lower screen-scale clamp. -/
def kMinScreenScale : ℚ := 0.20

/-- Upper screen-scale clamp. -/
def kMaxScreenScale : ℚ := 1.00

/-- Lower stereo-convergence clamp. -/
def kMinStereoConvergence : ℚ := -0.08

/-- Upper stereo-convergence clamp. -/
def kMaxStereoConvergence : ℚ := 0.08

/-- Screen-scale adjustment step. -/
def kScreenScaleStep : ℚ := 0.03

/-- Stereo-convergence adjustment step. -/
def kStereoConvergenceStep : ℚ := 0.004

/-- std::clamp on the exact rationals modelling these floats. -/
def qclamp (v lo hi : ℚ) : ℚ := if v < lo then lo else if hi < v then hi else v

/-- The two App members read and written by handleInfoToggleInput. -/
structure InfoToggleState where
  showInfoWindow : Bool := false
  infoToggleHeld : Bool := false
deriving DecidableEq, Repr

/-- App::handleInfoToggleInput: toggle the overlay on the false-to-true
edge of the held boolean, then record the held value. -/
def handleInfoToggleInput (s : InfoToggleState) (pressed : Bool) : InfoToggleState :=
  let s1 :=
    if pressed && !s.infoToggleHeld then { s with showInfoWindow := !s.showInfoWindow } else s
  { s1 with infoToggleHeld := pressed }

/-- Per-tick fire record of the info toggle across a sequence of held
readings: true at a tick iff that call toggled the overlay. -/
def infoToggleFires (s : InfoToggleState) : List Bool → List Bool
  | [] => []
  | p :: ps => (p && !s.infoToggleHeld) :: infoToggleFires (handleInfoToggleInput s p) ps

/-- The App members read and written by applyCalibrationInput. -/
structure CalibState where
  showInfoWindow : Bool := false
  screenScale : ℚ := kDefaultScreenScale
  stereoConvergence : ℚ := kDefaultStereoConvergence
  viewMode : ViewMode := .Anchored
  depthToggleHeld : Bool := false
  adjustUpHeld : Bool := false
  adjustDownHeld : Bool := false
  adjustLeftHeld : Bool := false
  adjustRightHeld : Bool := false
  adjustResetHeld : Bool := false
deriving DecidableEq, Repr

/-- App::toggleDepthViewMode, restricted to the modelled state (the
persistence and renderer-config side effects carry no App state). -/
def toggleDepthViewMode (s : CalibState) : CalibState :=
  { s with viewMode := if s.viewMode = ViewMode.Classic then ViewMode.Anchored
    else ViewMode.Classic }

/-- App::resetCalibrationEdgeState. -/
def resetCalibrationEdgeState (s : CalibState) : CalibState :=
  { s with
    adjustUpHeld := false
    adjustDownHeld := false
    adjustLeftHeld := false
    adjustRightHeld := false
    adjustResetHeld := false }

/-- App::applyCalibrationInput: the overlay-gated view-mode toggle, the
modal two-shoulder calibration modifier, the five edge-triggered
adjustments (which read the held flags recorded by the previous call and
rewrite them all at the end), and the consumption of the intercepted
fields of the input state. -/
def applyCalibrationInput (s : CalibState) (inputState : VbInputState) :
    CalibState × VbInputState :=
  let s1 :=
    if s.showInfoWindow then
      let s0 := if inputState.b && !s.depthToggleHeld then toggleDepthViewMode s else s
      { s0 with depthToggleHeld := inputState.b }
    else { s with depthToggleHeld := false }
  let input1 := if s.showInfoWindow then { inputState with b := false } else inputState
  if !s.showInfoWindow then (resetCalibrationEdgeState s1, input1)
  else
    let modifierHeld := input1.l && input1.r
    if !modifierHeld then (resetCalibrationEdgeState s1, input1)
    else
      let s2 :=
        if input1.up && !s1.adjustUpHeld then
          { s1 with screenScale :=
              qclamp (s1.screenScale + kScreenScaleStep) kMinScreenScale kMaxScreenScale }
        else s1
      let s3 :=
        if input1.down && !s1.adjustDownHeld then
          { s2 with screenScale :=
              qclamp (s2.screenScale - kScreenScaleStep) kMinScreenScale kMaxScreenScale }
        else s2
      let s4 :=
        if input1.right && !s1.adjustRightHeld then
          { s3 with stereoConvergence := qclamp (s3.stereoConvergence + kStereoConvergenceStep) kMinStereoConvergence kMaxStereoConvergence }
        else s3
      let s5 :=
        if input1.left && !s1.adjustLeftHeld then
          { s4 with stereoConvergence := qclamp (s4.stereoConvergence - kStereoConvergenceStep) kMinStereoConvergence kMaxStereoConvergence }
        else s4
      let s6 :=
        if input1.a && !s1.adjustResetHeld then
          { s5 with
            screenScale := kDefaultScreenScale
            stereoConvergence := kDefaultStereoConvergence }
        else s5
      let s7 :=
        { s6 with
          adjustUpHeld := input1.up
          adjustDownHeld := input1.down
          adjustLeftHeld := input1.left
          adjustRightHeld := input1.right
          adjustResetHeld := input1.a }
      let input2 :=
        { input1 with
          left := false
          right := false
          up := false
          down := false
          a := false
          l := false
          r := false
          b := false }
      (s7, input2)

/-- The three persisted presentation values. -/
structure PresentationSettings where
  screenScale : ℚ
  stereoConvergence : ℚ
  viewMode : ViewMode
deriving DecidableEq, Repr

/-- Models writing a float with `std::fixed << std::setprecision(4)`: the
exact rational denoted by the emitted four-fractional-digit numeral. -/
def fix4 (q : ℚ) : ℚ := ((round (q * 10000) : ℤ) : ℚ) / 10000

/-- App::savePresentationSettings: the three whitespace-separated values
written to the settings file, in source order (scale, convergence, view
mode as int). -/
def savePresentationSettings (s : PresentationSettings) : ℚ × ℚ × Int :=
  (fix4 s.screenScale, fix4 s.stereoConvergence, s.viewMode.toInt)

/-- App::loadPresentationSettings, applied to successfully parsed values:
re-clamp both floats and map a non-positive view-mode integer to Classic,
any other to Anchored. -/
def loadPresentationSettings (loadedScale loadedConvergence : ℚ) (loadedViewMode : Int) :
    PresentationSettings :=
  { screenScale := qclamp loadedScale kMinScreenScale kMaxScreenScale
    stereoConvergence := qclamp loadedConvergence kMinStereoConvergence kMaxStereoConvergence
    viewMode := if loadedViewMode ≤ 0 then ViewMode.Classic else ViewMode.Anchored }

end NativeApp

namespace StereoDepthReconstructor

/-- Prefix of the vertex scan: the fold state after the first n scan
positions of a grid with the given column count. -/
def vertScan (cfg : DepthReconstructionConfig) (disp : Int → Int)
    (disparityWidth disparityOffsetX sampleWidth sampleHeight : Int)
    (uvOffsetX uvScaleX : F) (cols n : Nat) : List F × F :=
  ((List.range n).map (fun k => (k / cols, k % cols))).foldl
    (meshScanStep cfg disp disparityWidth disparityOffsetX sampleWidth sampleHeight
      uvOffsetX uvScaleX)
    ([], cfg.farZ)

end StereoDepthReconstructor

section ScanLemmas

/-- Any fold whose step appends exactly five floats grows the accumulator
by five entries per list element. -/
theorem foldl_scan_length (step : List F × F → Nat × Nat → List F × F)
    (hstep : ∀ st p, ((step st p).1).length = st.1.length + 5) :
    ∀ (l : List (Nat × Nat)) (st : List F × F),
      ((l.foldl step st).1).length = st.1.length + 5 * l.length := by
  intro l
  induction l with
  | nil => intro st; simp
  | cons p ps ih =>
    intro st
    simp only [List.foldl_cons, List.length_cons]
    rw [ih, hstep]
    ring

theorem meshScanStep_length (cfg : DepthReconstructionConfig) (disp : Int → Int)
    (dW offX sW sH : Int) (uvO uvS : F) (st : List F × F) (p : Nat × Nat) :
    ((StereoDepthReconstructor.meshScanStep cfg disp dW offX sW sH uvO uvS st p).1).length =
      st.1.length + 5 := by
  simp [StereoDepthReconstructor.meshScanStep, StereoDepthReconstructor.meshVertex]

theorem stereoScanStep_length (e : VipMappingEvaluator) (cfg : DepthReconstructionConfig)
    (st : List F × F) (p : Nat × Nat) :
    ((WorldMeshBuilder.stereoScanStep e cfg st p).1).length = st.1.length + 5 := by
  simp [WorldMeshBuilder.stereoScanStep]

theorem gridPairs_length (rows cols : Nat) :
    (StereoDepthReconstructor.gridPairs rows cols).length = rows * cols := by
  simp [StereoDepthReconstructor.gridPairs]

theorem buildMeshVertices_length (cfg : DepthReconstructionConfig) (disp : Int → Int)
    (dW offX sW sH : Int) (uvO uvS : F) (rows cols : Nat) :
    (StereoDepthReconstructor.buildMeshVertices cfg disp dW offX sW sH uvO uvS rows cols).length =
      5 * (rows * cols) := by
  unfold StereoDepthReconstructor.buildMeshVertices
  rw [foldl_scan_length _ (meshScanStep_length cfg disp dW offX sW sH uvO uvS)]
  simp [gridPairs_length]

theorem buildStereoVertices_length (e : VipMappingEvaluator) (cfg : DepthReconstructionConfig)
    (rows cols : Nat) :
    (WorldMeshBuilder.buildStereoVertices e cfg rows cols).length = 5 * (rows * cols) := by
  unfold WorldMeshBuilder.buildStereoVertices
  rw [foldl_scan_length _ (stereoScanStep_length e cfg)]
  simp [gridPairs_length]

/-- Flattening a range-indexed map of constant-length blocks. -/
theorem length_flatten_range {α : Type} (n k : Nat) (f : Nat → List α)
    (h : ∀ i, (f i).length = k) :
    (((List.range n).map f).flatten).length = n * k := by
  induction n with
  | zero => simp
  | succ m ih =>
    rw [List.range_succ]
    simp only [List.map_append, List.flatten_append, List.length_append, ih]
    simp [h, Nat.succ_mul]

theorem cellIndices_length (cols : Int) (gy gx : Nat) :
    (StereoDepthReconstructor.cellIndices cols gy gx).length = 6 := rfl

theorem buildIndices_length (cols rows : Int) :
    (StereoDepthReconstructor.buildIndices cols rows).length =
      (rows - 1).toNat * ((cols - 1).toNat * 6) := by
  unfold StereoDepthReconstructor.buildIndices
  rw [length_flatten_range]
  intro gy
  rw [length_flatten_range]
  intro gx
  exact cellIndices_length cols gy gx

end ScanLemmas

section FLemmas

theorem F.fmax_fin (a b : ℚ) : F.fmax (.fin a) (.fin b) = .fin (max a b) := by
  unfold F.fmax F.flt
  by_cases h : a < b
  · simp [h, max_eq_right h.le]
  · simp [h, max_eq_left (le_of_not_lt h)]

theorem F.add_fin (a b : ℚ) : F.add (.fin a) (.fin b) = .fin (a + b) := rfl

theorem F.sub_fin (a b : ℚ) : F.sub (.fin a) (.fin b) = .fin (a - b) := by
  unfold F.sub F.neg F.add
  rw [sub_eq_add_neg]

theorem F.mul_fin (a b : ℚ) : F.mul (.fin a) (.fin b) = .fin (a * b) := rfl

theorem F.flt_fin (a b : ℚ) : F.flt (.fin a) (.fin b) = decide (a < b) := rfl

theorem F.fabs_fin (a : ℚ) : F.fabs (.fin a) = .fin |a| := rfl

theorem F.fdiv_fin (a b : ℚ) (hb : b ≠ 0) : F.fdiv (.fin a) (.fin b) = .fin (a / b) := by
  unfold F.fdiv
  simp [hb]

theorem F.clamp_fin (v lo hi : ℚ) (h : lo ≤ hi) :
    F.clamp (.fin v) (.fin lo) (.fin hi) = .fin (min (max v lo) hi) := by
  unfold F.clamp F.flt
  by_cases h1 : v < lo
  · have h2 : max v lo = lo := max_eq_right h1.le
    have h3 : min lo hi = lo := min_eq_left h
    simp [h1, h2, h3]
  · have h2 : max v lo = v := max_eq_left (le_of_not_lt h1)
    by_cases h4 : hi < v
    · simp [h1, h4, h2, min_eq_right h4.le]
    · simp [h1, h4, h2, min_eq_left (le_of_not_lt h4)]

/-- If std::max of an arbitrary float with a finite floor yields a finite
value, that value is at least the floor. -/
theorem F.fmax_fin_le (x : F) (c r : ℚ) (h : F.fmax x (.fin c) = .fin r) : c ≤ r := by
  cases x with
  | fin q =>
    by_cases hq : q < c
    · simp [F.fmax, F.flt, hq] at h
      exact le_of_eq h
    · simp [F.fmax, F.flt, hq] at h
      exact h ▸ le_of_not_lt hq
  | pinf => simp [F.fmax, F.flt] at h
  | ninf =>
    simp [F.fmax, F.flt] at h
    exact le_of_eq h
  | nan => simp [F.fmax, F.flt] at h

end FLemmas

namespace StereoDepthReconstructor

section VertScan

variable (cfg : DepthReconstructionConfig) (disp : Int → Int) (dW offX sW sH : Int)
  (uvO uvS : F) (cols : Nat)

theorem vertScan_succ (n : Nat) :
    vertScan cfg disp dW offX sW sH uvO uvS cols (n + 1) =
      meshScanStep cfg disp dW offX sW sH uvO uvS
        (vertScan cfg disp dW offX sW sH uvO uvS cols n) (n / cols, n % cols) := by
  unfold vertScan
  rw [List.range_succ, List.map_append, List.foldl_append]
  rfl

theorem vertScan_length (n : Nat) :
    (vertScan cfg disp dW offX sW sH uvO uvS cols n).1.length = 5 * n := by
  unfold vertScan
  rw [foldl_scan_length _ (meshScanStep_length cfg disp dW offX sW sH uvO uvS)]
  simp

theorem vertScan_snd (n : Nat) :
    (vertScan cfg disp dW offX sW sH uvO uvS cols (n + 1)).2 =
      scanDepth cfg disp dW offX sW sH cols n := by
  induction n with
  | zero =>
    rw [vertScan_succ]
    simp only [meshScanStep, scanDepth, scanSampleF]
    rfl
  | succ m ih =>
    rw [vertScan_succ]
    simp only [meshScanStep]
    rw [ih]
    simp only [scanDepth, scanSampleF]

theorem vertScan_last_entry (m : Nat) :
    (vertScan cfg disp dW offX sW sH uvO uvS cols (m + 1)).1[5 * m + 2]? =
      some (F.neg (F.add ((vertScan cfg disp dW offX sW sH uvO uvS cols (m + 1)).2)
        cfg.baseDistanceMeters)) := by
  rw [vertScan_succ]
  simp only [meshScanStep]
  rw [List.getElem?_append_right
    (by rw [vertScan_length]; omega)]
  rw [vertScan_length]
  have h2 : 5 * m + 2 - 5 * m = 2 := by omega
  rw [h2]
  simp [meshVertex]

theorem vertScan_get (n k : Nat) (hk : k < n) :
    (vertScan cfg disp dW offX sW sH uvO uvS cols n).1[5 * k + 2]? =
      some (F.neg (F.add (scanDepth cfg disp dW offX sW sH cols k)
        cfg.baseDistanceMeters)) := by
  induction n with
  | zero => exact absurd hk (Nat.not_lt_zero k)
  | succ m ih =>
    rcases Nat.lt_succ_iff_lt_or_eq.mp hk with hkm | hkeq
    · rw [vertScan_succ]
      simp only [meshScanStep]
      rw [List.getElem?_append_left
        (by rw [vertScan_length]; omega)]
      exact ih hkm
    · subst hkeq
      have h1 := vertScan_last_entry cfg disp dW offX sW sH uvO uvS cols k
      rw [vertScan_snd] at h1
      exact h1

end VertScan

end StereoDepthReconstructor

section MeshBranchLemmas

open StereoDepthReconstructor

theorem list_isEmpty_false {α : Type} (l : List α) (h : l.length ≠ 0) : l.isEmpty = false := by
  cases l with
  | nil => simp at h
  | cons a t => rfl

theorem buildMesh_none (cfg : DepthReconstructionConfig) (dW dH offX sW sH : Int)
    (uvO uvS : F) : buildMesh cfg none dW dH offX sW sH uvO uvS = (false, emptyMesh) := rfl

/-- buildMesh fails with value-initialised output whenever any rejection
condition of the source holds. -/
theorem buildMesh_false (cfg : DepthReconstructionConfig) (disparity : Option (Int → Int))
    (dW dH offX sW sH : Int) (uvO uvS : F)
    (h : disparity = none ∨ dW ≤ 1 ∨ dH ≤ 1 ∨ sW ≤ 1 ∨ sH ≤ 1 ∨ offX < 0 ∨
      dW < offX + sW ∨ meshCols cfg sW ≤ 1 ∨ meshRows cfg sH ≤ 1 ∨
      65535 ≤ meshCols cfg sW * meshRows cfg sH) :
    buildMesh cfg disparity dW dH offX sW sH uvO uvS = (false, emptyMesh) := by
  cases disparity with
  | none => rfl
  | some disp =>
    simp only [buildMesh]
    by_cases h1 : dW ≤ 1 ∨ dH ≤ 1 ∨ sW ≤ 1 ∨ sH ≤ 1 ∨ offX < 0 ∨ dW < offX + sW
    · rw [if_pos h1]
    · rw [if_neg h1]
      by_cases h2 : meshCols cfg sW ≤ 1 ∨ meshRows cfg sH ≤ 1
      · rw [if_pos h2]
      · rw [if_neg h2]
        have h3 : 65535 ≤ meshCols cfg sW * meshRows cfg sH := by tauto
        rw [if_pos h3]

/-- buildMesh on inputs passing all rejection checks: the populated mesh
and a true result. -/
theorem buildMesh_pos (cfg : DepthReconstructionConfig) (disp : Int → Int)
    (dW dH offX sW sH : Int) (uvO uvS : F)
    (h1 : ¬(dW ≤ 1 ∨ dH ≤ 1 ∨ sW ≤ 1 ∨ sH ≤ 1 ∨ offX < 0 ∨ dW < offX + sW))
    (h2 : ¬(meshCols cfg sW ≤ 1 ∨ meshRows cfg sH ≤ 1))
    (h3 : ¬(65535 ≤ meshCols cfg sW * meshRows cfg sH)) :
    buildMesh cfg (some disp) dW dH offX sW sH uvO uvS =
      (true,
        { vertices := buildMeshVertices cfg disp dW offX sW sH uvO uvS
            (meshRows cfg sH).toNat (meshCols cfg sW).toNat
          indices := buildIndices (meshCols cfg sW) (meshRows cfg sH)
          gridColumns := meshCols cfg sW
          gridRows := meshRows cfg sH
          valid := true }) := by
  have hc : 2 ≤ meshCols cfg sW := by omega
  have hr : 2 ≤ meshRows cfg sH := by omega
  have hvlen : (buildMeshVertices cfg disp dW offX sW sH uvO uvS
      (meshRows cfg sH).toNat (meshCols cfg sW).toNat).length ≠ 0 := by
    rw [buildMeshVertices_length]
    have hc2 : 2 ≤ (meshCols cfg sW).toNat := by omega
    have hr2 : 2 ≤ (meshRows cfg sH).toNat := by omega
    positivity
  have hilen : (buildIndices (meshCols cfg sW) (meshRows cfg sH)).length ≠ 0 := by
    rw [buildIndices_length]
    have hc2 : 1 ≤ (meshCols cfg sW - 1).toNat := by omega
    have hr2 : 1 ≤ (meshRows cfg sH - 1).toNat := by omega
    positivity
  simp only [buildMesh]
  rw [if_neg h1, if_neg h2, if_neg h3]
  rw [list_isEmpty_false _ hvlen, list_isEmpty_false _ hilen]
  rfl

/-- A true result of buildMesh pins the inputs: the disparity pointer is
non-null and every rejection check passed. -/
theorem buildMesh_true_inv (cfg : DepthReconstructionConfig) (disparity : Option (Int → Int))
    (dW dH offX sW sH : Int) (uvO uvS : F)
    (h : (buildMesh cfg disparity dW dH offX sW sH uvO uvS).1 = true) :
    ∃ disp, disparity = some disp ∧
      ¬(dW ≤ 1 ∨ dH ≤ 1 ∨ sW ≤ 1 ∨ sH ≤ 1 ∨ offX < 0 ∨ dW < offX + sW) ∧
      ¬(meshCols cfg sW ≤ 1 ∨ meshRows cfg sH ≤ 1) ∧
      ¬(65535 ≤ meshCols cfg sW * meshRows cfg sH) := by
  cases disparity with
  | none => rw [buildMesh_none] at h; simp at h
  | some disp =>
    refine ⟨disp, rfl, ?_, ?_, ?_⟩
    · intro hc
      rw [buildMesh_false cfg (some disp) dW dH offX sW sH uvO uvS (by tauto)] at h
      simp at h
    · intro hc
      rw [buildMesh_false cfg (some disp) dW dH offX sW sH uvO uvS (by tauto)] at h
      simp at h
    · intro hc
      rw [buildMesh_false cfg (some disp) dW dH offX sW sH uvO uvS (by tauto)] at h
      simp at h

end MeshBranchLemmas

section StereoBranchLemmas

open WorldMeshBuilder

theorem buildStereoMeshes_false (e : VipMappingEvaluator) (cfg : DepthReconstructionConfig)
    (h : VipMappingEvaluator.stereoReady e = false ∨ stereoCols e cfg ≤ 1 ∨
      stereoRows e cfg ≤ 1) :
    buildStereoMeshes e cfg = (false, emptyMesh, emptyMesh) := by
  simp only [buildStereoMeshes]
  cases hsr : VipMappingEvaluator.stereoReady e with
  | false => simp
  | true =>
    simp only [Bool.not_true, Bool.false_eq_true, if_false]
    have hcr : stereoCols e cfg ≤ 1 ∨ stereoRows e cfg ≤ 1 := by
      rcases h with h | h | h
      · rw [hsr] at h; exact absurd h (by simp)
      · exact Or.inl h
      · exact Or.inr h
    by_cases he : e.eyeWidth ≤ 1 ∨ e.eyeHeight ≤ 1
    · rw [if_pos he]
    · rw [if_neg he, if_pos hcr]

theorem buildStereoMeshes_pos (e : VipMappingEvaluator) (cfg : DepthReconstructionConfig)
    (hsr : VipMappingEvaluator.stereoReady e = true)
    (he : ¬(e.eyeWidth ≤ 1 ∨ e.eyeHeight ≤ 1))
    (hcr : ¬(stereoCols e cfg ≤ 1 ∨ stereoRows e cfg ≤ 1)) :
    buildStereoMeshes e cfg =
      (true,
        { vertices := buildStereoVertices e cfg (stereoRows e cfg).toNat (stereoCols e cfg).toNat
          indices := StereoDepthReconstructor.buildIndices (stereoCols e cfg) (stereoRows e cfg)
          gridColumns := stereoCols e cfg
          gridRows := stereoRows e cfg
          valid := true },
        { vertices := buildStereoVertices e cfg (stereoRows e cfg).toNat (stereoCols e cfg).toNat
          indices := StereoDepthReconstructor.buildIndices (stereoCols e cfg) (stereoRows e cfg)
          gridColumns := stereoCols e cfg
          gridRows := stereoRows e cfg
          valid := true }) := by
  have hvlen : (buildStereoVertices e cfg (stereoRows e cfg).toNat
      (stereoCols e cfg).toNat).length ≠ 0 := by
    rw [buildStereoVertices_length]
    have hc2 : 2 ≤ (stereoCols e cfg).toNat := by omega
    have hr2 : 2 ≤ (stereoRows e cfg).toNat := by omega
    positivity
  have hilen : (StereoDepthReconstructor.buildIndices (stereoCols e cfg)
      (stereoRows e cfg)).length ≠ 0 := by
    rw [buildIndices_length]
    have hc2 : 1 ≤ (stereoCols e cfg - 1).toNat := by omega
    have hr2 : 1 ≤ (stereoRows e cfg - 1).toNat := by omega
    positivity
  simp only [buildStereoMeshes, hsr, Bool.not_true, Bool.false_eq_true, if_false]
  rw [if_neg he, if_neg hcr]
  rw [list_isEmpty_false _ hvlen, list_isEmpty_false _ hilen]
  rfl

/-- Whenever buildStereoMeshes reports success the two emitted meshes are
one and the same value. -/
theorem buildStereoMeshes_eq_of_true (e : VipMappingEvaluator)
    (cfg : DepthReconstructionConfig) (h : (buildStereoMeshes e cfg).1 = true) :
    (buildStereoMeshes e cfg).2.1 = (buildStereoMeshes e cfg).2.2 := by
  simp only [buildStereoMeshes] at h ⊢
  split_ifs at h ⊢
  simp_all

end StereoBranchLemmas

namespace NativeApp

theorem qclamp_min (v lo hi : ℚ) (h : lo ≤ v) : qclamp v lo hi = min v hi := by
  unfold qclamp
  split_ifs with h1 h2
  · exact absurd h1 (not_lt.mpr h)
  · exact (min_eq_right h2.le).symm
  · exact (min_eq_left (le_of_not_lt h2)).symm

/-- While the overlay is shown and both shoulders are held (and neither the
down nor the reset adjustment is pressed), one call applies the up-step to
the screen scale exactly when the up field shows a fresh press, and records
the held flags. -/
theorem applyCalibrationInput_active (s : CalibState) (inp : VbInputState)
    (hshow : s.showInfoWindow = true) (hl : inp.l = true) (hr : inp.r = true)
    (hdown : inp.down = false) (ha : inp.a = false) :
    (applyCalibrationInput s inp).1.screenScale =
      (if inp.up && !s.adjustUpHeld then
        qclamp (s.screenScale + kScreenScaleStep) kMinScreenScale kMaxScreenScale
      else s.screenScale) ∧
    (applyCalibrationInput s inp).1.adjustUpHeld = inp.up ∧
    (applyCalibrationInput s inp).1.showInfoWindow = true := by
  simp only [applyCalibrationInput, hshow, hl, hr, hdown, ha, toggleDepthViewMode,
    Bool.and_self, Bool.not_true, Bool.and_false, Bool.false_and, if_true, if_false,
    Bool.false_eq_true, Bool.true_and]
  split_ifs with h1 h2 h3 h4 h5
  all_goals simp_all

/-- Once the held flag is set, further held-true ticks never fire the
info toggle. -/
theorem infoToggleFires_held (m : Nat) (s : InfoToggleState) (hs : s.infoToggleHeld = true) :
    infoToggleFires s (List.replicate m true) = List.replicate m false := by
  induction m generalizing s with
  | zero => rfl
  | succ k ih =>
    rw [List.replicate_succ, List.replicate_succ]
    simp only [infoToggleFires, hs, Bool.not_true, Bool.and_false]
    refine congrArg (List.cons false) ?_
    refine ih _ ?_
    simp [handleInfoToggleInput]

end NativeApp

theorem buildMeshVertices_eq_vertScan (cfg : DepthReconstructionConfig) (disp : Int → Int)
    (dW offX sW sH : Int) (uvO uvS : F) (rows cols : Nat) :
    StereoDepthReconstructor.buildMeshVertices cfg disp dW offX sW sH uvO uvS rows cols =
      (StereoDepthReconstructor.vertScan cfg disp dW offX sW sH uvO uvS cols
        (rows * cols)).1 := rfl

attribute [local semireducible] Rat.ofScientific Rat.mul Rat.add Rat.inv Rat.sub

open StereoDepthReconstructor NativeApp in
/-- C1: for every configuration installed via setConfig (with finite field
values, quantified through their rational images) and every disparity d,
reconstructDepthMeters returns farZ when the effective disparity is below
minDisparity, otherwise the clamped triangulation formula, and in either
case the result lies in the interval from nearZ to farZ. -/
theorem C1_reconstructDepthMeters_spec (c0 : DepthReconstructionConfig)
    (f b bias m near far : ℚ)
    (hf : (setConfig c0).focalLengthPx = .fin f)
    (hb : (setConfig c0).baselineMeters = .fin b)
    (hbias : (setConfig c0).disparityBiasPx = .fin bias)
    (hm : (setConfig c0).minDisparityPx = .fin m)
    (hn : (setConfig c0).nearZ = .fin near)
    (hfz : (setConfig c0).farZ = .fin far) (d : ℚ) :
    (|d| - bias < m → reconstructDepthMeters (setConfig c0) (.fin d) = .fin far) ∧
    (m ≤ |d| - bias →
      reconstructDepthMeters (setConfig c0) (.fin d) =
        .fin (min (max ((f * b) / max (|d| - bias) 0.001) near) far)) ∧
    (∃ z : ℚ, reconstructDepthMeters (setConfig c0) (.fin d) = .fin z ∧
      near ≤ z ∧ z ≤ far) := by
  have hm1 : (0.001 : ℚ) ≤ m := by
    have h1 : F.fmax c0.minDisparityPx (.fin 0.001) = .fin m := by
      simpa [setConfig] using hm
    exact F.fmax_fin_le _ _ _ h1
  have hn1 : F.fmax c0.nearZ (.fin 0.01) = .fin near := by
    simpa [setConfig] using hn
  have hfar1 : near + 0.01 ≤ far := by
    have h2 : F.fmax c0.farZ (F.add (F.fmax c0.nearZ (.fin 0.01)) (.fin 0.01)) = .fin far := by
      simpa [setConfig] using hfz
    rw [hn1, F.add_fin] at h2
    exact F.fmax_fin_le _ _ _ h2
  have hnf : near ≤ far := by linarith
  have hdenom : max (|d| - bias) (0.001 : ℚ) ≠ 0 := by
    have : (0.001 : ℚ) ≤ max (|d| - bias) 0.001 := le_max_right _ _
    intro hz
    rw [hz] at this
    norm_num at this
  have hrec : reconstructDepthMeters (setConfig c0) (.fin d) =
      if |d| - bias < m then .fin far
      else .fin (min (max ((f * b) / max (|d| - bias) 0.001) near) far) := by
    simp only [reconstructDepthMeters]
    rw [hbias, hm, hf, hb, hn, hfz, F.fabs_fin, F.sub_fin, F.flt_fin]
    rw [F.mul_fin, F.fmax_fin, F.fdiv_fin _ _ hdenom, F.clamp_fin _ _ _ hnf]
    by_cases hlt : |d| - bias < m
    · simp [hlt]
    · simp [hlt]
  refine ⟨?_, ?_, ?_⟩
  · intro hlt
    rw [hrec, if_pos hlt]
  · intro hge
    rw [hrec, if_neg (not_lt.mpr hge)]
  · by_cases hlt : |d| - bias < m
    · refine ⟨far, by rw [hrec, if_pos hlt], hnf, le_refl far⟩
    · refine ⟨min (max ((f * b) / max (|d| - bias) 0.001) near) far,
        by rw [hrec, if_neg hlt], ?_, min_le_right _ _⟩
      exact le_min (le_max_right _ _) hnf

open StereoDepthReconstructor in
/-- Witness for C1 at the default configuration and disparity 3: the result
is a finite depth between nearZ and farZ. -/
theorem C1_reconstructDepthMeters_spec_witness :
    ∃ z : ℚ, reconstructDepthMeters (setConfig {}) (.fin 3) = .fin z ∧
      (0.45 : ℚ) ≤ z ∧ z ≤ 8.5 :=
  (C1_reconstructDepthMeters_spec {} 250 0.064 0 0.30 0.45 8.5
    (by decide) (by decide) (by decide) (by decide) (by decide) (by decide) 3).2.2

open NativeApp in
/-- C8: starting from a tick where the toggle button was last read false,
a run of N consecutive held-true readings fires the bound toggle exactly
once, on the first tick, and on no later tick. -/
theorem C8_edge_trigger (s : InfoToggleState) (hheld : s.infoToggleHeld = false)
    (n : Nat) (hn : 1 ≤ n) :
    infoToggleFires s (List.replicate n true) = true :: List.replicate (n - 1) false := by
  obtain ⟨m, rfl⟩ : ∃ m, n = m + 1 := ⟨n - 1, by omega⟩
  rw [List.replicate_succ]
  simp only [infoToggleFires, hheld, Bool.not_false, Bool.and_true, Nat.add_sub_cancel]
  refine congrArg (List.cons true) ?_
  refine infoToggleFires_held m _ ?_
  simp [handleInfoToggleInput]

open NativeApp in
/-- Witness for C8: four held-true ticks from a released state fire on the
first tick only. -/
theorem C8_edge_trigger_witness :
    infoToggleFires {} (List.replicate 4 true) = true :: List.replicate 3 false :=
  C8_edge_trigger {} rfl 4 (by decide)

open NativeApp in
/-- C10: saving the presentation settings at scale 0.5, convergence 0.02,
view mode Anchored and re-loading the parsed values returns the same three
values; a non-positive stored view-mode integer loads as Classic and a
positive one as Anchored. -/
theorem C10_roundtrip :
    loadPresentationSettings
        (savePresentationSettings
          { screenScale := 0.5, stereoConvergence := 0.02, viewMode := .Anchored }).1
        (savePresentationSettings
          { screenScale := 0.5, stereoConvergence := 0.02, viewMode := .Anchored }).2.1
        (savePresentationSettings
          { screenScale := 0.5, stereoConvergence := 0.02, viewMode := .Anchored }).2.2 =
      { screenScale := 0.5, stereoConvergence := 0.02, viewMode := .Anchored } ∧
    (loadPresentationSettings 0.5 0.02 0).viewMode = ViewMode.Classic ∧
    (loadPresentationSettings 0.5 0.02 (-3)).viewMode = ViewMode.Classic ∧
    (loadPresentationSettings 0.5 0.02 1).viewMode = ViewMode.Anchored := by
  refine ⟨?_, by decide, by decide, by decide⟩
  show loadPresentationSettings (fix4 0.5) (fix4 0.02) (ViewMode.toInt .Anchored) = _
  norm_num [fix4, loadPresentationSettings, qclamp, ViewMode.toInt, kMinScreenScale,
    kMaxScreenScale, kMinStereoConvergence, kMaxStereoConvergence]

open StereoDepthReconstructor in
/-- C5: buildMesh returns false with value-initialised (empty, invalid)
output whenever the disparity pointer is null, a sample dimension is at
most 1, the offset is negative or runs past the disparity width, the
computed grid collapses to at most one column or row, or the computed
vertex count reaches 65535. -/
theorem C5_buildMesh_rejects (cfg : DepthReconstructionConfig)
    (disparity : Option (Int → Int)) (dW dH offX sW sH : Int) (uvO uvS : F)
    (h : disparity = none ∨ sW ≤ 1 ∨ sH ≤ 1 ∨ offX < 0 ∨ dW < offX + sW ∨
      meshCols cfg sW ≤ 1 ∨ meshRows cfg sH ≤ 1 ∨
      65535 ≤ meshCols cfg sW * meshRows cfg sH) :
    buildMesh cfg disparity dW dH offX sW sH uvO uvS = (false, emptyMesh) :=
  buildMesh_false cfg disparity dW dH offX sW sH uvO uvS (by tauto)

open StereoDepthReconstructor in
/-- Witness for C5 at the null-pointer rejection. -/
theorem C5_buildMesh_rejects_witness :
    buildMesh {} none 384 224 0 384 224 (.fin 0) (.fin 1) = (false, emptyMesh) :=
  C5_buildMesh_rejects {} none 384 224 0 384 224 (.fin 0) (.fin 1) (Or.inl rfl)

open StereoDepthReconstructor in
/-- C2 (amended): StereoDepthReconstructor::buildMesh enforces the vertex
ceiling, failing with empty output whenever the computed grid reaches
65535 vertices; WorldMeshBuilder::buildStereoMeshes performs no such
check and can succeed past the ceiling (see the counterexample). -/
theorem C2_buildMesh_vertex_cap (cfg : DepthReconstructionConfig)
    (disparity : Option (Int → Int)) (dW dH offX sW sH : Int) (uvO uvS : F)
    (h : 65535 ≤ meshCols cfg sW * meshRows cfg sH) :
    buildMesh cfg disparity dW dH offX sW sH uvO uvS = (false, emptyMesh) :=
  buildMesh_false cfg disparity dW dH offX sW sH uvO uvS (by tauto)

open StereoDepthReconstructor in
/-- Witness for C2 at the spec example: unit grid steps on a 256-by-256
sample give 65536 vertices, and buildMesh fails. -/
theorem C2_buildMesh_vertex_cap_witness :
    65535 ≤ meshCols { gridStepX := 1, gridStepY := 1 } 256 *
      meshRows { gridStepX := 1, gridStepY := 1 } 256 ∧
    buildMesh { gridStepX := 1, gridStepY := 1 } (some fun _ => 0) 256 256 0 256 256
      (.fin 0) (.fin 1) = (false, emptyMesh) :=
  ⟨by decide,
    C2_buildMesh_vertex_cap { gridStepX := 1, gridStepY := 1 } (some fun _ => 0)
      256 256 0 256 256 (.fin 0) (.fin 1) (by decide)⟩

/-- Counterexample for C2: buildStereoMeshes on a stereo-ready 512x256
binding with 256x256 eyes and unit grid steps computes a 256-by-256 grid
(65536 vertices, past the 65535 ceiling) yet succeeds, with 65536 emitted
vertices. -/
theorem C2_counterexample :
    65535 ≤
      WorldMeshBuilder.stereoCols
          (VipMappingEvaluator.bind (some fun _ => 0) (some fun _ => 0) 512 256 256 256)
          (StereoDepthReconstructor.setConfig { gridStepX := 1, gridStepY := 1 }) *
        WorldMeshBuilder.stereoRows
          (VipMappingEvaluator.bind (some fun _ => 0) (some fun _ => 0) 512 256 256 256)
          (StereoDepthReconstructor.setConfig { gridStepX := 1, gridStepY := 1 }) ∧
    (WorldMeshBuilder.buildStereoMeshes
        (VipMappingEvaluator.bind (some fun _ => 0) (some fun _ => 0) 512 256 256 256)
        (StereoDepthReconstructor.setConfig { gridStepX := 1, gridStepY := 1 })).1 = true ∧
    (WorldMeshBuilder.buildStereoMeshes
        (VipMappingEvaluator.bind (some fun _ => 0) (some fun _ => 0) 512 256 256 256)
        (StereoDepthReconstructor.setConfig { gridStepX := 1, gridStepY := 1 })).2.1.vertices.length =
      5 * 65536 := by
  have h := buildStereoMeshes_pos
    (VipMappingEvaluator.bind (some fun _ => 0) (some fun _ => 0) 512 256 256 256)
    (StereoDepthReconstructor.setConfig { gridStepX := 1, gridStepY := 1 })
    (by decide) (by decide) (by decide)
  refine ⟨by decide, ?_, ?_⟩
  · rw [h]
  · rw [h]
    simp only [buildStereoVertices_length]
    decide

open StereoDepthReconstructor in
/-- C4: whenever buildMesh succeeds, the output holds exactly cols times
rows vertices of five floats and six indices per interior grid cell, with
cols and rows recorded in the mesh and given by the stride formulas. -/
theorem C4_mesh_dimensions (cfg : DepthReconstructionConfig)
    (disparity : Option (Int → Int)) (dW dH offX sW sH : Int) (uvO uvS : F)
    (htrue : (buildMesh cfg disparity dW dH offX sW sH uvO uvS).1 = true) :
    (buildMesh cfg disparity dW dH offX sW sH uvO uvS).2.vertices.length =
      5 * ((meshCols cfg sW).toNat * (meshRows cfg sH).toNat) ∧
    (buildMesh cfg disparity dW dH offX sW sH uvO uvS).2.indices.length =
      6 * ((meshCols cfg sW - 1).toNat * (meshRows cfg sH - 1).toNat) ∧
    (buildMesh cfg disparity dW dH offX sW sH uvO uvS).2.gridColumns = meshCols cfg sW ∧
    (buildMesh cfg disparity dW dH offX sW sH uvO uvS).2.gridRows = meshRows cfg sH := by
  obtain ⟨disp, hd, h1, h2, h3⟩ :=
    buildMesh_true_inv cfg disparity dW dH offX sW sH uvO uvS htrue
  subst hd
  rw [buildMesh_pos cfg disp dW dH offX sW sH uvO uvS h1 h2 h3]
  refine ⟨?_, ?_, rfl, rfl⟩
  · show (buildMeshVertices cfg disp dW offX sW sH uvO uvS
      (meshRows cfg sH).toNat (meshCols cfg sW).toNat).length = _
    rw [buildMeshVertices_length]
    ring
  · show (buildIndices (meshCols cfg sW) (meshRows cfg sH)).length = _
    rw [buildIndices_length]
    ring

open StereoDepthReconstructor in
/-- Witness for C4: a successful 2x2 build on a 2x2 sample with unit
steps has 20 vertex floats and 6 indices. -/
theorem C4_mesh_dimensions_witness :
    ((buildMesh { gridStepX := 1, gridStepY := 1 } (some fun _ => 40) 2 2 0 2 2
        (.fin 0) (.fin 1)).1 = true) ∧
    (buildMesh { gridStepX := 1, gridStepY := 1 } (some fun _ => 40) 2 2 0 2 2
        (.fin 0) (.fin 1)).2.vertices.length = 5 * (2 * 2) ∧
    (buildMesh { gridStepX := 1, gridStepY := 1 } (some fun _ => 40) 2 2 0 2 2
        (.fin 0) (.fin 1)).2.indices.length = 6 * (1 * 1) :=
  ⟨by decide,
    (C4_mesh_dimensions { gridStepX := 1, gridStepY := 1 } (some fun _ => 40) 2 2 0 2 2
      (.fin 0) (.fin 1) (by decide)).1,
    (C4_mesh_dimensions { gridStepX := 1, gridStepY := 1 } (some fun _ => 40) 2 2 0 2 2
      (.fin 0) (.fin 1) (by decide)).2.1⟩

/-- C6: buildStereoMeshes fails with value-initialised outputs whenever
the evaluator is not stereo-ready or the grid collapses to at most one
column or row, and whenever it succeeds the two emitted meshes are
identical. -/
theorem C6_buildStereoMeshes (e : VipMappingEvaluator) (cfg : DepthReconstructionConfig) :
    ((VipMappingEvaluator.stereoReady e = false ∨ WorldMeshBuilder.stereoCols e cfg ≤ 1 ∨
        WorldMeshBuilder.stereoRows e cfg ≤ 1) →
      WorldMeshBuilder.buildStereoMeshes e cfg = (false, emptyMesh, emptyMesh)) ∧
    ((WorldMeshBuilder.buildStereoMeshes e cfg).1 = true →
      (WorldMeshBuilder.buildStereoMeshes e cfg).2.1 =
        (WorldMeshBuilder.buildStereoMeshes e cfg).2.2) :=
  ⟨buildStereoMeshes_false e cfg, buildStereoMeshes_eq_of_true e cfg⟩

/-- Witness for C6 at a binding that is not stereo-ready (width below
twice the eye width). -/
theorem C6_buildStereoMeshes_witness :
    WorldMeshBuilder.buildStereoMeshes
        (VipMappingEvaluator.bind (some fun _ => 0) (some fun _ => 0) 384 224 384 224) {} =
      (false, emptyMesh, emptyMesh) :=
  (C6_buildStereoMeshes
    (VipMappingEvaluator.bind (some fun _ => 0) (some fun _ => 0) 384 224 384 224) {}).1
    (Or.inl (by decide))

open StereoDepthReconstructor in
/-- Counterexample for C3: with farZ forced to plus-infinity through
setConfig, a 2x2 unit-step build over the disparity map
[[40,16],[40,0]] reconstructs a non-finite depth at grid vertex (1,1)
(scan position 3, stored z at flat position 17); the stored z there equals
that of the scan predecessor (1,0) (flat position 12) and differs from
that of the previous-row vertex (0,1) (flat position 7), refuting the
previous-row fallback reading. -/
theorem C3_counterexample :
    ((reconstructDepthMeters
        (setConfig { farZ := F.pinf, gridStepX := 1, gridStepY := 1 })
        (scanSampleF (setConfig { farZ := F.pinf, gridStepX := 1, gridStepY := 1 })
          (fun i => if i = 3 then 0 else if i = 1 then 16 else 40) 2 0 2 2 2 3)).isFinite =
      false) ∧
    (buildMesh (setConfig { farZ := F.pinf, gridStepX := 1, gridStepY := 1 })
        (some fun i => if i = 3 then 0 else if i = 1 then 16 else 40) 2 2 0 2 2
        (.fin 0) (.fin 1)).1 = true ∧
    (buildMesh (setConfig { farZ := F.pinf, gridStepX := 1, gridStepY := 1 })
        (some fun i => if i = 3 then 0 else if i = 1 then 16 else 40) 2 2 0 2 2
        (.fin 0) (.fin 1)).2.vertices[17]? = some (.fin (-(17 / 10))) ∧
    (buildMesh (setConfig { farZ := F.pinf, gridStepX := 1, gridStepY := 1 })
        (some fun i => if i = 3 then 0 else if i = 1 then 16 else 40) 2 2 0 2 2
        (.fin 0) (.fin 1)).2.vertices[12]? = some (.fin (-(17 / 10))) ∧
    (buildMesh (setConfig { farZ := F.pinf, gridStepX := 1, gridStepY := 1 })
        (some fun i => if i = 3 then 0 else if i = 1 then 16 else 40) 2 2 0 2 2
        (.fin 0) (.fin 1)).2.vertices[7]? = some (.fin (-(9 / 4))) ∧
    ¬((buildMesh (setConfig { farZ := F.pinf, gridStepX := 1, gridStepY := 1 })
        (some fun i => if i = 3 then 0 else if i = 1 then 16 else 40) 2 2 0 2 2
        (.fin 0) (.fin 1)).2.vertices[17]? =
      (buildMesh (setConfig { farZ := F.pinf, gridStepX := 1, gridStepY := 1 })
        (some fun i => if i = 3 then 0 else if i = 1 then 16 else 40) 2 2 0 2 2
        (.fin 0) (.fin 1)).2.vertices[7]?) := by
  refine ⟨by decide, by decide, by decide, by decide, by decide, by decide⟩

open StereoDepthReconstructor in
/-- C3 (amended): in a successful buildMesh, every grid vertex whose
reconstructed depth is non-finite holds the depth carried from the
immediately preceding vertex in row-major scan order: its stored z entry
equals the scan predecessor's stored z entry. -/
theorem C3_hold_last_scan_value (cfg : DepthReconstructionConfig) (disp : Int → Int)
    (dW dH offX sW sH : Int) (uvO uvS : F) (k : Nat)
    (htrue : (buildMesh cfg (some disp) dW dH offX sW sH uvO uvS).1 = true)
    (hk : k + 1 < (meshRows cfg sH).toNat * (meshCols cfg sW).toNat)
    (hnf : (reconstructDepthMeters cfg
        (scanSampleF cfg disp dW offX sW sH (meshCols cfg sW).toNat (k + 1))).isFinite =
      false) :
    (buildMesh cfg (some disp) dW dH offX sW sH uvO uvS).2.vertices[5 * (k + 1) + 2]? =
      (buildMesh cfg (some disp) dW dH offX sW sH uvO uvS).2.vertices[5 * k + 2]? := by
  obtain ⟨disp2, hd, h1, h2, h3⟩ :=
    buildMesh_true_inv cfg (some disp) dW dH offX sW sH uvO uvS htrue
  injection hd with hd
  subst hd
  rw [buildMesh_pos cfg disp dW dH offX sW sH uvO uvS h1 h2 h3]
  show (buildMeshVertices cfg disp dW offX sW sH uvO uvS
      (meshRows cfg sH).toNat (meshCols cfg sW).toNat)[5 * (k + 1) + 2]? =
    (buildMeshVertices cfg disp dW offX sW sH uvO uvS
      (meshRows cfg sH).toNat (meshCols cfg sW).toNat)[5 * k + 2]?
  rw [buildMeshVertices_eq_vertScan]
  rw [vertScan_get cfg disp dW offX sW sH uvO uvS (meshCols cfg sW).toNat _ (k + 1) hk]
  rw [vertScan_get cfg disp dW offX sW sH uvO uvS (meshCols cfg sW).toNat _ k (by omega)]
  have hsd : scanDepth cfg disp dW offX sW sH (meshCols cfg sW).toNat (k + 1) =
      scanDepth cfg disp dW offX sW sH (meshCols cfg sW).toNat k := by
    simp only [scanDepth]
    rw [hnf]
    simp
  rw [hsd]

open StereoDepthReconstructor in
/-- Witness for C3 (amended) at the counterexample inputs and scan
position 3. -/
theorem C3_hold_last_scan_value_witness :
    (buildMesh (setConfig { farZ := F.pinf, gridStepX := 1, gridStepY := 1 })
        (some fun i => if i = 3 then 0 else if i = 1 then 16 else 40) 2 2 0 2 2
        (.fin 0) (.fin 1)).2.vertices[5 * (2 + 1) + 2]? =
      (buildMesh (setConfig { farZ := F.pinf, gridStepX := 1, gridStepY := 1 })
        (some fun i => if i = 3 then 0 else if i = 1 then 16 else 40) 2 2 0 2 2
        (.fin 0) (.fin 1)).2.vertices[5 * 2 + 2]? :=
  C3_hold_last_scan_value (setConfig { farZ := F.pinf, gridStepX := 1, gridStepY := 1 })
    (fun i => if i = 3 then 0 else if i = 1 then 16 else 40) 2 2 0 2 2
    (.fin 0) (.fin 1) 2 (by decide) (by decide) (by decide)

/-- C7: on a bound evaluator, evaluateEye rejects (valid false) exactly
the queries with an eye outside 0..1, an eye-local coordinate outside the
eye rectangle, a translated full-frame coordinate outside the bound
arrays, or a source coordinate equal to the sentinel -32768; every other
query returns the stored source coordinates with valid true. -/
theorem C7_evaluateEye_spec (e : VipMappingEvaluator) (fx fy : Int → Int)
    (hx : e.sourceX = some fx) (hy : e.sourceY = some fy) (hv : e.valid = true)
    (eye x y : Int) :
    ((eye < 0 ∨ 1 < eye ∨ x < 0 ∨ y < 0 ∨ e.eyeWidth ≤ x ∨ e.eyeHeight ≤ y ∨
        x + eye * e.eyeWidth < 0 ∨ e.width ≤ x + eye * e.eyeWidth ∨ e.height ≤ y ∨
        fx (y * e.width + (x + eye * e.eyeWidth)) = VipMappingEvaluator.kInvalidSourceCoord ∨
        fy (y * e.width + (x + eye * e.eyeWidth)) = VipMappingEvaluator.kInvalidSourceCoord) →
      (e.evaluateEye eye x y).valid = false) ∧
    (¬(eye < 0 ∨ 1 < eye ∨ x < 0 ∨ y < 0 ∨ e.eyeWidth ≤ x ∨ e.eyeHeight ≤ y ∨
        x + eye * e.eyeWidth < 0 ∨ e.width ≤ x + eye * e.eyeWidth ∨ e.height ≤ y ∨
        fx (y * e.width + (x + eye * e.eyeWidth)) = VipMappingEvaluator.kInvalidSourceCoord ∨
        fy (y * e.width + (x + eye * e.eyeWidth)) = VipMappingEvaluator.kInvalidSourceCoord) →
      e.evaluateEye eye x y =
        { sx := .fin ((fx (y * e.width + (x + eye * e.eyeWidth)) : ℚ)),
          sy := .fin ((fy (y * e.width + (x + eye * e.eyeWidth)) : ℚ)),
          valid := true }) := by
  constructor
  · intro hcond
    by_cases hA : e.valid = false ∨ eye < 0 ∨ 1 < eye ∨ x < 0 ∨ y < 0 ∨ e.eyeWidth ≤ x ∨
        e.eyeHeight ≤ y
    · simp [VipMappingEvaluator.evaluateEye, if_pos hA]
    · by_cases hB : x + eye * e.eyeWidth < 0 ∨ e.width ≤ x + eye * e.eyeWidth ∨ e.height ≤ y
      · simp [VipMappingEvaluator.evaluateEye, if_neg hA, if_pos hB]
      · have hC : fx (y * e.width + (x + eye * e.eyeWidth)) =
            VipMappingEvaluator.kInvalidSourceCoord ∨
            fy (y * e.width + (x + eye * e.eyeWidth)) =
            VipMappingEvaluator.kInvalidSourceCoord := by
          tauto
        simp [VipMappingEvaluator.evaluateEye, if_neg hA, if_neg hB, hx, hy, if_pos hC]
  · intro hncond
    have hA : ¬(e.valid = false ∨ eye < 0 ∨ 1 < eye ∨ x < 0 ∨ y < 0 ∨ e.eyeWidth ≤ x ∨
        e.eyeHeight ≤ y) := by
      rw [hv]
      tauto
    have hB : ¬(x + eye * e.eyeWidth < 0 ∨ e.width ≤ x + eye * e.eyeWidth ∨ e.height ≤ y) := by
      tauto
    have hC : ¬(fx (y * e.width + (x + eye * e.eyeWidth)) =
        VipMappingEvaluator.kInvalidSourceCoord ∨
        fy (y * e.width + (x + eye * e.eyeWidth)) =
        VipMappingEvaluator.kInvalidSourceCoord) := by
      tauto
    simp [VipMappingEvaluator.evaluateEye, if_neg hA, if_neg hB, hx, hy, if_neg hC]

/-- Witness for C7: an in-range right-eye query on a bound 4x2 frame with
2x2 eyes returns the stored coordinates. -/
theorem C7_evaluateEye_spec_witness :
    (VipMappingEvaluator.bind (some fun _ => 7) (some fun _ => 9) 4 2 2 2).evaluateEye 1 1 1 =
      { sx := .fin 7, sy := .fin 9, valid := true } :=
  (C7_evaluateEye_spec
    (VipMappingEvaluator.bind (some fun _ => 7) (some fun _ => 9) 4 2 2 2)
    (fun _ => 7) (fun _ => 9) rfl rfl (by decide) 1 1 1).2 (by decide)

open NativeApp in
/-- C9: with the overlay shown, both shoulder buttons held and the up
adjustment freshly pressed (held flag still false), one call advances the
screen scale by exactly one 0.03 step clamped to at most 1.00, records the
held flag, and a second call with the direction still held does not apply
the step again. -/
theorem C9_scale_step (s : CalibState) (inp : VbInputState)
    (hshow : s.showInfoWindow = true) (hl : inp.l = true) (hr : inp.r = true)
    (hup : inp.up = true) (hheld : s.adjustUpHeld = false)
    (hdown : inp.down = false) (ha : inp.a = false)
    (hlo : kMinScreenScale ≤ s.screenScale) :
    (applyCalibrationInput s inp).1.screenScale =
      min (s.screenScale + kScreenScaleStep) kMaxScreenScale ∧
    (applyCalibrationInput s inp).1.screenScale ≤ kMaxScreenScale ∧
    (applyCalibrationInput s inp).1.adjustUpHeld = true ∧
    (applyCalibrationInput (applyCalibrationInput s inp).1 inp).1.screenScale =
      (applyCalibrationInput s inp).1.screenScale := by
  obtain ⟨hscale, hheld2, hshow2⟩ := applyCalibrationInput_active s inp hshow hl hr hdown ha
  rw [hup, hheld] at hscale
  simp only [Bool.not_false, Bool.and_self, if_true] at hscale
  have hstep0 : (0 : ℚ) ≤ kScreenScaleStep := by norm_num [kScreenScaleStep]
  have hq : qclamp (s.screenScale + kScreenScaleStep) kMinScreenScale kMaxScreenScale =
      min (s.screenScale + kScreenScaleStep) kMaxScreenScale :=
    qclamp_min _ _ _ (by linarith)
  have hmain : (applyCalibrationInput s inp).1.screenScale =
      min (s.screenScale + kScreenScaleStep) kMaxScreenScale := by rw [hscale, hq]
  refine ⟨hmain, ?_, ?_, ?_⟩
  · rw [hmain]
    exact min_le_right _ _
  · rw [hheld2, hup]
  · obtain ⟨h2scale, h2held, h2show⟩ :=
      applyCalibrationInput_active (applyCalibrationInput s inp).1 inp hshow2 hl hr hdown ha
    rw [h2scale, hheld2, hup]
    simp

open NativeApp in
/-- Witness for C9 at the default presentation state with the overlay
shown and up freshly pressed under the two-shoulder modifier. -/
theorem C9_scale_step_witness :
    (applyCalibrationInput { showInfoWindow := true }
        { up := true, l := true, r := true }).1.screenScale =
      min (kDefaultScreenScale + kScreenScaleStep) kMaxScreenScale :=
  (C9_scale_step { showInfoWindow := true } { up := true, l := true, r := true }
    rfl rfl rfl rfl rfl rfl rfl (by decide)).1
